import Mathlib

/-!
Verification of the per-task PDF processing pipeline of
`scripts/process4.py` (functions `compress_pdf_in_memory`, `is_scanned_pdf`
and `process_file`), shallowly embedded in Lean.

External collaborators (the ZIP reader, the PyMuPDF document capability,
the random page sampler and the Ghostscript subprocess) are passed to the
embedded functions as explicit function arguments; the file system is made
explicit by returning the ordered list of file writes a run performs.
-/

namespace Process4

/-- A byte string (content of an archive entry or of a produced file). -/
abbrev Bytes := List Nat

/-- A loaded PDF page as exposed by the document capability: `text` is the
string returned by text extraction, `images` the number of embedded images
reported for the page. -/
structure Page where
  text : String
  images : Nat
deriving DecidableEq

/-- A parsed PDF document: its list of pages. -/
structure Doc where
  pages : List Page
deriving DecidableEq

/-- The three output bucket roots of the pipeline. -/
inductive Bucket
  | compressed
  | scanned
  | failure
deriving DecidableEq

/-- One file write performed by a run: destination
`bucket / zip_name / file_path` and the bytes written. -/
structure Write where
  bucket : Bucket
  zip_name : String
  file_path : String
  data : Bytes
deriving DecidableEq

/-- The per-task result record built by `process_file` (the Python dict,
with sizes in KB modelled as rationals since Python divides by 1024). -/
structure ProcessResult where
  zip_name : String
  file_path : String
  status : String
  original_size : ℚ
  compressed_size : ℚ
  compression_ratio : ℚ
  error : String
deriving DecidableEq

/-- Python `str.strip()`: the string with leading and trailing whitespace
removed (the truthiness test `if page.get_text().strip():` checks this for
non-emptiness). -/
def pyStrip (s : String) : String :=
  ⟨((s.data.dropWhile Char.isWhitespace).reverse.dropWhile Char.isWhitespace).reverse⟩

/-- Outcome of the Ghostscript subprocess invocation: `.error` models a
spawn or pipe failure raised by `Popen`/`communicate`; `.ok` carries
(returncode, stdout bytes, decoded stderr text). -/
abbrev GsRun := Except String (Nat × Bytes × String)

/-- `compress_pdf_in_memory` from process4.py. Runs Ghostscript on the byte
stream; a nonzero exit status raises "Ghostscript error: <stderr>", and the
surrounding handler re-raises every failure as "Compression failed: <e>"
(modelled as `.error`). -/
def compress_pdf_in_memory (gs : Bytes → GsRun) (pdf_data : Bytes) :
    Except String Bytes :=
  match gs pdf_data with
  | .error e => .error ("Compression failed: " ++ e)
  | .ok (returncode, compressed_data, stderr) =>
      if returncode ≠ 0 then
        .error ("Compression failed: Ghostscript error: " ++ stderr)
      else
        .ok compressed_data

/-- `is_scanned_pdf` from process4.py. `parse` models `fitz.open` on a byte
stream (raising = `.error`); `sampler k n` models `random.sample(range(n), k)`.
A zero-page document is not scanned; otherwise every sampled page must have
empty stripped text and at least one embedded image; any error (parse
failure, out-of-range page load) yields `false`. -/
def is_scanned_pdf (parse : Bytes → Except String Doc)
    (sampler : Nat → Nat → List Nat)
    (pdf_data : Bytes) (num_pages_to_check : Nat) : Bool :=
  match parse pdf_data with
  | .error _ => false
  | .ok doc =>
      let total_pages := doc.pages.length
      if total_pages = 0 then false
      else
        let sample_pages := sampler (min num_pages_to_check total_pages) total_pages
        sample_pages.all fun page_num =>
          match doc.pages.get? page_num with
          | none => false
          | some page => (pyStrip page.text == "") && (page.images != 0)

/-- `process_file` from process4.py, for one task (`zip_name` is the
archive's stem, `file_path` the entry's relative path). `read_entry` is the
outcome of `zip_ref.read` for this entry; `parse`, `sampler` and `gs` are
the external capabilities. Returns the result record together with the
ordered list of file writes the run performs. A zero `original_size` in the
ratio computation raises ZeroDivisionError in Python; that raise is modelled
explicitly and lands in the outer handler like every other error. -/
def process_file (zip_name file_path : String)
    (read_entry : Except String Bytes)
    (parse : Bytes → Except String Doc)
    (sampler : Nat → Nat → List Nat)
    (gs : Bytes → GsRun) : ProcessResult × List Write :=
  let result : ProcessResult :=
    { zip_name := zip_name, file_path := file_path, status := "failed",
      original_size := 0, compressed_size := 0, compression_ratio := 0,
      error := "" }
  match read_entry with
  | .error e =>
      -- outer handler; `file_data` is not in scope, so a zero-length
      -- placeholder is written to the failure bucket
      ({ result with status := "failed: " ++ e, error := e,
                     compressed_size := 0 },
       [⟨Bucket.failure, zip_name, file_path, []⟩])
  | .ok file_data =>
      let original_size : ℚ := (file_data.length : ℚ) / 1024
      match parse file_data with
      | .error e =>
          -- "Invalid PDF" raise, caught by the outer handler
          let msg := "Invalid PDF: " ++ e
          ({ result with status := "failed: " ++ msg, error := msg,
                         original_size := original_size,
                         compressed_size := original_size },
           [⟨Bucket.failure, zip_name, file_path, file_data⟩])
      | .ok _doc =>
          if is_scanned_pdf parse sampler file_data 3 then
            ({ result with status := "success (scanned)",
                           original_size := original_size,
                           compressed_size := original_size },
             [⟨Bucket.scanned, zip_name, file_path, file_data⟩])
          else
            match compress_pdf_in_memory gs file_data with
            | .ok compressed_data =>
                let compressed_size : ℚ := (compressed_data.length : ℚ) / 1024
                let save_data :=
                  if compressed_size < original_size then compressed_data
                  else file_data
                let compression_status :=
                  if compressed_size < original_size then "compressed"
                  else "uncompressed (larger size)"
                let w : Write :=
                  ⟨Bucket.compressed, zip_name, file_path, save_data⟩
                if original_size = 0 then
                  -- ZeroDivisionError while evaluating the ratio, after the
                  -- bucket write; caught by the outer handler, which then
                  -- writes `file_data` to the failure bucket as well
                  ({ result with status := "failed: float division by zero",
                                 error := "float division by zero",
                                 original_size := original_size,
                                 compressed_size := original_size },
                   [w, ⟨Bucket.failure, zip_name, file_path, file_data⟩])
                else
                  ({ result with
                       status := "success (" ++ compression_status ++ ")",
                       original_size := original_size,
                       compressed_size := (save_data.length : ℚ) / 1024,
                       compression_ratio :=
                         (original_size - (save_data.length : ℚ) / 1024)
                           / original_size * 100 },
                   [w])
            | .error e =>
                -- inner handler writes the original bytes to the failure
                -- bucket and re-raises; the outer handler writes them again
                let msg := "Compression failed: " ++ e
                ({ result with status := "failed: " ++ msg, error := msg,
                               original_size := original_size,
                               compressed_size := original_size },
                 [⟨Bucket.failure, zip_name, file_path, file_data⟩,
                  ⟨Bucket.failure, zip_name, file_path, file_data⟩])

/-! Concrete instances of the external capabilities, used to evaluate the
embedded pipeline on closed inputs. The parse functions reject the empty
byte string, as `fitz.open` does on an empty stream. -/

/-- A one-page document with no extractable text and one embedded image:
the classifier's "scanned" shape. -/
def scanDoc : Doc := ⟨[⟨"", 1⟩]⟩

/-- A one-page document with extractable text: classified as text-bearing. -/
def textDoc : Doc := ⟨[⟨"Hello world", 0⟩]⟩

/-- A parse capability that yields `scanDoc` for any non-empty input. -/
def parseScan : Bytes → Except String Doc :=
  fun b => if b = [] then .error "cannot open empty stream" else .ok scanDoc

/-- A parse capability that yields `textDoc` for any non-empty input. -/
def parseText : Bytes → Except String Doc :=
  fun b => if b = [] then .error "cannot open empty stream" else .ok textDoc

/-- A parse capability that always fails, as on a non-PDF byte stream. -/
def parseFail : Bytes → Except String Doc :=
  fun _ => .error "cannot open broken document"

/-- A deterministic page sampler: the first `min k n` page indices. -/
def sampleFirst : Nat → Nat → List Nat :=
  fun k n => List.range (min k n)

/-- A Ghostscript run that exits 0 with a one-byte output stream. -/
def gsSmall : Bytes → GsRun := fun _ => .ok (0, [7], "")

/-- A Ghostscript run that exits 0 but returns a strictly larger stream. -/
def gsLarge : Bytes → GsRun := fun b => .ok (0, 9 :: 9 :: b, "")

/-- A Ghostscript run that exits with status 1 and a diagnostic. -/
def gsCrash : Bytes → GsRun := fun _ => .ok (1, [], "Unrecoverable error")

/-- A byte count divided by 1024 is zero exactly for the empty byte string. -/
theorem size_kb_eq_zero_iff (n : Nat) : ((n : ℚ) / 1024 = 0) ↔ n = 0 := by
  rw [div_eq_zero_iff]
  norm_num

/-- A nonzero byte count gives a strictly positive KB size. -/
theorem size_kb_pos (n : Nat) (h : n ≠ 0) : (0 : ℚ) < (n : ℚ) / 1024 := by
  apply div_pos
  · exact_mod_cast Nat.pos_of_ne_zero h
  · norm_num

/-- C8: when the entry cannot be read from its archive, `process_file`
writes a single zero-length placeholder to the failure bucket, the status is
"failed: <read error>", and `original_size` stays 0. -/
theorem process_file_read_failure (zip_name file_path e : String)
    (parse : Bytes → Except String Doc) (sampler : Nat → Nat → List Nat)
    (gs : Bytes → GsRun) :
    (process_file zip_name file_path (Except.error e) parse sampler gs).2
        = [⟨Bucket.failure, zip_name, file_path, []⟩] ∧
    (process_file zip_name file_path (Except.error e) parse sampler gs).1.status
        = "failed: " ++ e ∧
    (process_file zip_name file_path (Except.error e) parse sampler gs).1.original_size
        = 0 := by
  refine ⟨rfl, rfl, rfl⟩

/-- C7: when the entry bytes read but do not parse as a PDF, `process_file`
writes the original bytes unchanged to the failure bucket and the status is
"failed: Invalid PDF: <detail>". -/
theorem process_file_validation_failure (zip_name file_path : String)
    (file_data : Bytes) (parse : Bytes → Except String Doc)
    (sampler : Nat → Nat → List Nat) (gs : Bytes → GsRun) (d : String)
    (hparse : parse file_data = Except.error d) :
    (process_file zip_name file_path (Except.ok file_data) parse sampler gs).2
        = [⟨Bucket.failure, zip_name, file_path, file_data⟩] ∧
    (process_file zip_name file_path (Except.ok file_data) parse sampler gs).1.status
        = "failed: Invalid PDF: " ++ d := by
  have hs : ("failed: Invalid PDF: " ++ d : String)
      = "failed: " ++ ("Invalid PDF: " ++ d) := by
    rw [← String.append_assoc]
    rfl
  rw [hs]
  simp [process_file, hparse]

/-- C7 witness at a concrete non-PDF byte stream. -/
theorem process_file_validation_failure_witness :
    parseFail [104, 105] = Except.error "cannot open broken document" ∧
    ((process_file "a" "bad.pdf" (Except.ok [104, 105]) parseFail sampleFirst gsSmall).2
        = [⟨Bucket.failure, "a", "bad.pdf", [104, 105]⟩] ∧
     (process_file "a" "bad.pdf" (Except.ok [104, 105]) parseFail sampleFirst gsSmall).1.status
        = "failed: Invalid PDF: " ++ "cannot open broken document") :=
  ⟨rfl, process_file_validation_failure "a" "bad.pdf" [104, 105] parseFail
    sampleFirst gsSmall "cannot open broken document" rfl⟩

/-- The deterministic sampler only produces page indices below the page
count, as `random.sample(range(n), k)` does. -/
theorem sampleFirst_lt : ∀ k n : Nat, ∀ i ∈ sampleFirst k n, i < n := by
  intro k n i hi
  have h := List.mem_range.mp hi
  omega

/-- C2: for every byte string and every valid random page sample (indices
within the page range, as `random.sample` guarantees), `is_scanned_pdf`
returns true iff the bytes parse to a document with positive page count and
every sampled page has empty stripped text and at least one embedded image;
in particular it returns false on zero pages, on any sampled page with text
or without images, and on any parse error — and, being a total Bool-valued
function, it never raises a distinct error. -/
theorem is_scanned_pdf_spec (parse : Bytes → Except String Doc)
    (sampler : Nat → Nat → List Nat) (pdf_data : Bytes) (k : Nat)
    (hsample : ∀ k2 n : Nat, ∀ i ∈ sampler k2 n, i < n) :
    is_scanned_pdf parse sampler pdf_data k = true ↔
      ∃ doc : Doc, parse pdf_data = Except.ok doc ∧ 0 < doc.pages.length ∧
        ∀ i ∈ sampler (min k doc.pages.length) doc.pages.length,
          ∃ p : Page, doc.pages.get? i = some p ∧
            pyStrip p.text = "" ∧ 0 < p.images := by
  cases hp : parse pdf_data with
  | error e => simp [is_scanned_pdf, hp]
  | ok doc =>
      simp only [is_scanned_pdf, hp]
      by_cases h0 : doc.pages.length = 0
      · simp [h0, hp]
      · rw [if_neg h0, List.all_eq_true]
        constructor
        · intro h
          refine ⟨doc, rfl, Nat.pos_of_ne_zero h0, ?_⟩
          intro i hi
          have hlt := hsample _ _ i hi
          have hx := h i hi
          cases hget : doc.pages.get? i with
          | none =>
              have := List.get?_eq_none.mp hget
              omega
          | some p =>
              rw [hget] at hx
              simp only [Bool.and_eq_true, beq_iff_eq, bne_iff_ne] at hx
              exact ⟨p, rfl, hx.1, Nat.pos_of_ne_zero hx.2⟩
        · intro h i hi
          obtain ⟨doc2, hdoc2, _hpos, hall⟩ := h
          obtain rfl : doc = doc2 := by
            exact (Except.ok.injEq _ _).mp hdoc2
          obtain ⟨p, hget, h1, h2⟩ := hall i hi
          rw [hget]
          simp only [Bool.and_eq_true, beq_iff_eq, bne_iff_ne]
          exact ⟨h1, Nat.pos_iff_ne_zero.mp h2⟩

/-- C2 witness: the classifier evaluated on a concrete scanned-shaped
document with the concrete valid sampler. -/
theorem is_scanned_pdf_spec_witness :
    (∀ k2 n : Nat, ∀ i ∈ sampleFirst k2 n, i < n) ∧
    (is_scanned_pdf parseScan sampleFirst [37, 80] 3 = true ↔
      ∃ doc : Doc, parseScan [37, 80] = Except.ok doc ∧ 0 < doc.pages.length ∧
        ∀ i ∈ sampleFirst (min 3 doc.pages.length) doc.pages.length,
          ∃ p : Page, doc.pages.get? i = some p ∧
            pyStrip p.text = "" ∧ 0 < p.images) :=
  ⟨sampleFirst_lt,
   is_scanned_pdf_spec parseScan sampleFirst [37, 80] 3 sampleFirst_lt⟩

/-- C9: for every task and every behaviour of the read, parse, sampling and
compression capabilities, `process_file` returns a ProcessResult normally
(the embedding is a total function), and the result either reports a success
status with an empty error field, or a status of the exact form
"failed: <error>" with the raised message recorded in the error field. -/
theorem process_file_never_raises (zip_name file_path : String)
    (read_entry : Except String Bytes) (parse : Bytes → Except String Doc)
    (sampler : Nat → Nat → List Nat) (gs : Bytes → GsRun) :
    ((∃ s, (process_file zip_name file_path read_entry parse sampler gs).1.status
            = "success (" ++ s ++ ")") ∧
      (process_file zip_name file_path read_entry parse sampler gs).1.error = "") ∨
    (process_file zip_name file_path read_entry parse sampler gs).1.status
      = "failed: "
        ++ (process_file zip_name file_path read_entry parse sampler gs).1.error := by
  cases read_entry with
  | error e => right; rfl
  | ok file_data =>
      cases hp : parse file_data with
      | error e => right; simp [process_file, hp]
      | ok doc =>
          cases hs : is_scanned_pdf parse sampler file_data 3 with
          | true =>
              refine Or.inl ⟨⟨"scanned", ?_⟩, ?_⟩ <;> simp [process_file, hp, hs]
          | false =>
              cases hc : compress_pdf_in_memory gs file_data with
              | error e => right; simp [process_file, hp, hs, hc]
              | ok compressed_data =>
                  by_cases h0 : ((file_data.length : ℚ) / 1024 = 0)
                  · right
                    simp [process_file, hp, hs, hc, h0]
                  · by_cases hlt : ((compressed_data.length : ℚ) / 1024
                        < (file_data.length : ℚ) / 1024)
                    · refine Or.inl ⟨⟨"compressed", ?_⟩, ?_⟩ <;>
                        simp [process_file, hp, hs, hc, h0, hlt]
                    · refine Or.inl ⟨⟨"uncompressed (larger size)", ?_⟩, ?_⟩ <;>
                        simp [process_file, hp, hs, hc, h0, hlt]

/-- C5: a task whose entry parses and is classified as scanned writes the
original bytes unchanged to the scanned bucket (a byte-identical
round-trip), with compressed_size = original_size, ratio = 0 and status
"success (scanned)". -/
theorem process_file_scanned_roundtrip (zip_name file_path : String)
    (file_data : Bytes) (parse : Bytes → Except String Doc)
    (sampler : Nat → Nat → List Nat) (gs : Bytes → GsRun) (doc : Doc)
    (hparse : parse file_data = Except.ok doc)
    (hscan : is_scanned_pdf parse sampler file_data 3 = true) :
    (process_file zip_name file_path (Except.ok file_data) parse sampler gs).2
        = [⟨Bucket.scanned, zip_name, file_path, file_data⟩] ∧
    (process_file zip_name file_path (Except.ok file_data) parse sampler gs).1.compressed_size
        = (process_file zip_name file_path (Except.ok file_data) parse sampler gs).1.original_size ∧
    (process_file zip_name file_path (Except.ok file_data) parse sampler gs).1.compression_ratio
        = 0 ∧
    (process_file zip_name file_path (Except.ok file_data) parse sampler gs).1.status
        = "success (scanned)" := by
  refine ⟨?_, ?_, ?_, ?_⟩ <;> simp [process_file, hparse, hscan]

/-- C5 witness: a concrete one-page scanned document round-trips through the
scanned bucket. -/
theorem process_file_scanned_roundtrip_witness :
    parseScan [37, 80] = Except.ok scanDoc ∧
    is_scanned_pdf parseScan sampleFirst [37, 80] 3 = true ∧
    ((process_file "a" "scan.pdf" (Except.ok [37, 80]) parseScan sampleFirst gsSmall).2
        = [⟨Bucket.scanned, "a", "scan.pdf", [37, 80]⟩] ∧
     (process_file "a" "scan.pdf" (Except.ok [37, 80]) parseScan sampleFirst gsSmall).1.compressed_size
        = (process_file "a" "scan.pdf" (Except.ok [37, 80]) parseScan sampleFirst gsSmall).1.original_size ∧
     (process_file "a" "scan.pdf" (Except.ok [37, 80]) parseScan sampleFirst gsSmall).1.compression_ratio
        = 0 ∧
     (process_file "a" "scan.pdf" (Except.ok [37, 80]) parseScan sampleFirst gsSmall).1.status
        = "success (scanned)") :=
  ⟨rfl, by decide,
   process_file_scanned_roundtrip "a" "scan.pdf" [37, 80] parseScan
     sampleFirst gsSmall scanDoc rfl (by decide)⟩

/-- C3: when the entry parses, is classified text-bearing, and compression
succeeds with a strictly smaller output, `process_file` writes exactly the
compressed bytes to the compressed bucket, reports status
"success (compressed)", and the ratio is (original − compressed) / original
× 100, strictly positive. -/
theorem process_file_compressed_success (zip_name file_path : String)
    (file_data compressed_data : Bytes) (parse : Bytes → Except String Doc)
    (sampler : Nat → Nat → List Nat) (gs : Bytes → GsRun) (doc : Doc)
    (hparse : parse file_data = Except.ok doc)
    (hscan : is_scanned_pdf parse sampler file_data 3 = false)
    (hcomp : compress_pdf_in_memory gs file_data = Except.ok compressed_data)
    (hlt : compressed_data.length < file_data.length) :
    (process_file zip_name file_path (Except.ok file_data) parse sampler gs).2
        = [⟨Bucket.compressed, zip_name, file_path, compressed_data⟩] ∧
    (process_file zip_name file_path (Except.ok file_data) parse sampler gs).1.status
        = "success (compressed)" ∧
    (process_file zip_name file_path (Except.ok file_data) parse sampler gs).1.compression_ratio
        = ((file_data.length : ℚ) / 1024 - (compressed_data.length : ℚ) / 1024)
            / ((file_data.length : ℚ) / 1024) * 100 ∧
    0 < (process_file zip_name file_path (Except.ok file_data) parse sampler gs).1.compression_ratio := by
  have hltq : (compressed_data.length : ℚ) / 1024 < (file_data.length : ℚ) / 1024 := by
    rw [div_lt_div_iff_of_pos_right (by norm_num)]
    exact_mod_cast hlt
  have hopos : (0 : ℚ) < (file_data.length : ℚ) / 1024 :=
    lt_of_le_of_lt (by positivity) hltq
  have h0 : ¬ ((file_data.length : ℚ) / 1024 = 0) := ne_of_gt hopos
  refine ⟨?_, ?_, ?_, ?_⟩
  · simp [process_file, hparse, hscan, hcomp, hltq, h0]
  · simp [process_file, hparse, hscan, hcomp, hltq, h0]
  · simp [process_file, hparse, hscan, hcomp, hltq, h0]
  · have hval :
        (process_file zip_name file_path (Except.ok file_data) parse sampler gs).1.compression_ratio
          = ((file_data.length : ℚ) / 1024 - (compressed_data.length : ℚ) / 1024)
              / ((file_data.length : ℚ) / 1024) * 100 := by
      simp [process_file, hparse, hscan, hcomp, hltq, h0]
    rw [hval]
    have hnum : (0 : ℚ) < (file_data.length : ℚ) / 1024 - (compressed_data.length : ℚ) / 1024 :=
      sub_pos.mpr hltq
    positivity

/-- C3 witness: a concrete text-bearing entry whose stub compressor returns
a strictly smaller stream. -/
theorem process_file_compressed_success_witness :
    parseText [1, 2, 3, 4] = Except.ok textDoc ∧
    is_scanned_pdf parseText sampleFirst [1, 2, 3, 4] 3 = false ∧
    compress_pdf_in_memory gsSmall [1, 2, 3, 4] = Except.ok [7] ∧
    ([7] : Bytes).length < ([1, 2, 3, 4] : Bytes).length ∧
    ((process_file "a" "x.pdf" (Except.ok [1, 2, 3, 4]) parseText sampleFirst gsSmall).2
        = [⟨Bucket.compressed, "a", "x.pdf", [7]⟩] ∧
     (process_file "a" "x.pdf" (Except.ok [1, 2, 3, 4]) parseText sampleFirst gsSmall).1.status
        = "success (compressed)" ∧
     (process_file "a" "x.pdf" (Except.ok [1, 2, 3, 4]) parseText sampleFirst gsSmall).1.compression_ratio
        = ((([1, 2, 3, 4] : Bytes).length : ℚ) / 1024 - ((([7] : Bytes).length : ℚ)) / 1024)
            / ((([1, 2, 3, 4] : Bytes).length : ℚ) / 1024) * 100 ∧
     0 < (process_file "a" "x.pdf" (Except.ok [1, 2, 3, 4]) parseText sampleFirst gsSmall).1.compression_ratio) :=
  ⟨rfl, by decide, rfl, by decide,
   process_file_compressed_success "a" "x.pdf" [1, 2, 3, 4] [7] parseText
     sampleFirst gsSmall textDoc rfl (by decide) rfl (by decide)⟩

/-- C4: when compression succeeds but the output is not strictly smaller,
`process_file` writes the ORIGINAL bytes (byte-identical to the source
entry) to the compressed bucket and reports ratio 0 with
compressed_size = original_size; the document capability is assumed to
reject empty inputs, as real PDF parsing does. -/
theorem process_file_uncompressed_fallback (zip_name file_path : String)
    (file_data compressed_data : Bytes) (parse : Bytes → Except String Doc)
    (sampler : Nat → Nat → List Nat) (gs : Bytes → GsRun) (doc : Doc)
    (hcap : ∀ d : Doc, parse [] ≠ Except.ok d)
    (hparse : parse file_data = Except.ok doc)
    (hscan : is_scanned_pdf parse sampler file_data 3 = false)
    (hcomp : compress_pdf_in_memory gs file_data = Except.ok compressed_data)
    (hge : file_data.length ≤ compressed_data.length) :
    (process_file zip_name file_path (Except.ok file_data) parse sampler gs).2
        = [⟨Bucket.compressed, zip_name, file_path, file_data⟩] ∧
    (process_file zip_name file_path (Except.ok file_data) parse sampler gs).1.compression_ratio
        = 0 ∧
    (process_file zip_name file_path (Except.ok file_data) parse sampler gs).1.compressed_size
        = (process_file zip_name file_path (Except.ok file_data) parse sampler gs).1.original_size ∧
    (process_file zip_name file_path (Except.ok file_data) parse sampler gs).1.status
        = "success (uncompressed (larger size))" := by
  have hne : file_data ≠ [] := by
    intro h
    rw [h] at hparse
    exact hcap doc hparse
  have hlen : file_data.length ≠ 0 := fun h => hne (List.length_eq_zero.mp h)
  have h0 : ¬ ((file_data.length : ℚ) / 1024 = 0) :=
    ne_of_gt (size_kb_pos file_data.length hlen)
  have hnlt : ¬ ((compressed_data.length : ℚ) / 1024 < (file_data.length : ℚ) / 1024) := by
    rw [div_lt_div_iff_of_pos_right (by norm_num)]
    push_neg
    exact_mod_cast hge
  refine ⟨?_, ?_, ?_, ?_⟩ <;>
    simp [process_file, hparse, hscan, hcomp, hnlt, h0]

/-- C4 witness: a concrete entry whose stub compressor returns a strictly
larger stream, so the original bytes land in the compressed bucket. -/
theorem process_file_uncompressed_fallback_witness :
    (∀ d : Doc, parseText [] ≠ Except.ok d) ∧
    parseText [1, 2, 3] = Except.ok textDoc ∧
    is_scanned_pdf parseText sampleFirst [1, 2, 3] 3 = false ∧
    compress_pdf_in_memory gsLarge [1, 2, 3] = Except.ok [9, 9, 1, 2, 3] ∧
    ([1, 2, 3] : Bytes).length ≤ ([9, 9, 1, 2, 3] : Bytes).length ∧
    ((process_file "a" "x.pdf" (Except.ok [1, 2, 3]) parseText sampleFirst gsLarge).2
        = [⟨Bucket.compressed, "a", "x.pdf", [1, 2, 3]⟩] ∧
     (process_file "a" "x.pdf" (Except.ok [1, 2, 3]) parseText sampleFirst gsLarge).1.compression_ratio
        = 0 ∧
     (process_file "a" "x.pdf" (Except.ok [1, 2, 3]) parseText sampleFirst gsLarge).1.compressed_size
        = (process_file "a" "x.pdf" (Except.ok [1, 2, 3]) parseText sampleFirst gsLarge).1.original_size ∧
     (process_file "a" "x.pdf" (Except.ok [1, 2, 3]) parseText sampleFirst gsLarge).1.status
        = "success (uncompressed (larger size))") :=
  ⟨fun d h => by simp [parseText] at h, rfl, by decide, rfl, by decide,
   process_file_uncompressed_fallback "a" "x.pdf" [1, 2, 3] [9, 9, 1, 2, 3]
     parseText sampleFirst gsLarge textDoc (fun d h => by simp [parseText] at h)
     rfl (by decide) rfl (by decide)⟩

/-- C6: when the entry parses, is classified text-bearing, and compression
raises with message e, `process_file` writes the original bytes to the
failure bucket (the inner and outer handlers each perform that same write)
and the result has status "failed: Compression failed: <e>" with
"Compression failed: <e>" in the error field. -/
theorem process_file_compression_failure (zip_name file_path : String)
    (file_data : Bytes) (parse : Bytes → Except String Doc)
    (sampler : Nat → Nat → List Nat) (gs : Bytes → GsRun) (doc : Doc)
    (e : String)
    (hparse : parse file_data = Except.ok doc)
    (hscan : is_scanned_pdf parse sampler file_data 3 = false)
    (hcomp : compress_pdf_in_memory gs file_data = Except.error e) :
    (process_file zip_name file_path (Except.ok file_data) parse sampler gs).1.status
        = "failed: Compression failed: " ++ e ∧
    (process_file zip_name file_path (Except.ok file_data) parse sampler gs).1.error
        = "Compression failed: " ++ e ∧
    (process_file zip_name file_path (Except.ok file_data) parse sampler gs).2 ≠ [] ∧
    ∀ w ∈ (process_file zip_name file_path (Except.ok file_data) parse sampler gs).2,
      w = ⟨Bucket.failure, zip_name, file_path, file_data⟩ := by
  have hs : ("failed: Compression failed: " ++ e : String)
      = "failed: " ++ ("Compression failed: " ++ e) := by
    rw [← String.append_assoc]
    rfl
  rw [hs]
  refine ⟨?_, ?_, ?_, ?_⟩ <;>
    simp [process_file, hparse, hscan, hcomp]

/-- C6 witness: a concrete run whose Ghostscript invocation exits with
status 1. -/
theorem process_file_compression_failure_witness :
    parseText [1, 2, 3] = Except.ok textDoc ∧
    is_scanned_pdf parseText sampleFirst [1, 2, 3] 3 = false ∧
    compress_pdf_in_memory gsCrash [1, 2, 3]
        = Except.error "Compression failed: Ghostscript error: Unrecoverable error" ∧
    ((process_file "a" "y.pdf" (Except.ok [1, 2, 3]) parseText sampleFirst gsCrash).1.status
        = "failed: Compression failed: "
            ++ "Compression failed: Ghostscript error: Unrecoverable error" ∧
     (process_file "a" "y.pdf" (Except.ok [1, 2, 3]) parseText sampleFirst gsCrash).1.error
        = "Compression failed: "
            ++ "Compression failed: Ghostscript error: Unrecoverable error" ∧
     (process_file "a" "y.pdf" (Except.ok [1, 2, 3]) parseText sampleFirst gsCrash).2 ≠ [] ∧
     ∀ w ∈ (process_file "a" "y.pdf" (Except.ok [1, 2, 3]) parseText sampleFirst gsCrash).2,
       w = ⟨Bucket.failure, "a", "y.pdf", [1, 2, 3]⟩) :=
  ⟨rfl, by decide, rfl,
   process_file_compression_failure "a" "y.pdf" [1, 2, 3] parseText sampleFirst
     gsCrash textDoc "Compression failed: Ghostscript error: Unrecoverable error"
     rfl (by decide) rfl⟩

/-- C10: whenever the entry bytes validate as a well-formed document — with
the document capability rejecting the empty byte string, as real PDF
parsing does — the result's `original_size` is strictly positive, so the
`original_size` divisor in the compression-ratio computation is never
zero. -/
theorem process_file_ratio_divisor_pos (zip_name file_path : String)
    (file_data : Bytes) (parse : Bytes → Except String Doc)
    (sampler : Nat → Nat → List Nat) (gs : Bytes → GsRun) (doc : Doc)
    (hcap : ∀ d : Doc, parse [] ≠ Except.ok d)
    (hparse : parse file_data = Except.ok doc) :
    0 < (process_file zip_name file_path (Except.ok file_data) parse sampler gs).1.original_size := by
  have hne : file_data ≠ [] := by
    intro h
    rw [h] at hparse
    exact hcap doc hparse
  have hlen : file_data.length ≠ 0 := fun h => hne (List.length_eq_zero.mp h)
  have hpos := size_kb_pos file_data.length hlen
  have h0 : ¬ ((file_data.length : ℚ) / 1024 = 0) := ne_of_gt hpos
  cases hs : is_scanned_pdf parse sampler file_data 3 with
  | true => simpa [process_file, hparse, hs] using hpos
  | false =>
      cases hc : compress_pdf_in_memory gs file_data with
      | error e => simpa [process_file, hparse, hs, hc] using hpos
      | ok compressed_data =>
          simpa [process_file, hparse, hs, hc, h0] using hpos

/-- C10 witness: a concrete validated entry has a positive size divisor. -/
theorem process_file_ratio_divisor_pos_witness :
    (∀ d : Doc, parseText [] ≠ Except.ok d) ∧
    parseText [1, 2, 3] = Except.ok textDoc ∧
    0 < (process_file "a" "x.pdf" (Except.ok [1, 2, 3]) parseText sampleFirst gsSmall).1.original_size :=
  ⟨fun d h => by simp [parseText] at h, rfl,
   process_file_ratio_divisor_pos "a" "x.pdf" [1, 2, 3] parseText sampleFirst
     gsSmall textDoc (fun d h => by simp [parseText] at h) rfl⟩

/-- C1 counterexample: on a concrete task whose compression raises, the run
performs TWO write operations (the inner handler's failure write and the
outer handler's repeat of it), refuting "exactly one file write". -/
theorem process_file_compression_failure_two_writes :
    ((process_file "a" "y.pdf" (Except.ok [1, 2, 3]) parseText sampleFirst gsCrash).2).length
      = 2 := by
  have hp : parseText [1, 2, 3] = Except.ok textDoc := rfl
  have hs : is_scanned_pdf parseText sampleFirst [1, 2, 3] 3 = false := by decide
  have hc : compress_pdf_in_memory gsCrash [1, 2, 3]
      = Except.error "Compression failed: Ghostscript error: Unrecoverable error" := rfl
  simp [process_file, hp, hs, hc]

/-- C1 (amended): assuming the document capability rejects the empty byte
string (as real PDF parsing does), every run of `process_file` writes only
to the single path `bucket/zip_name/file_path` under exactly one of the
three buckets: the write list is a single write in every outcome except
compression failure, where the identical failure-bucket write (same path,
same original bytes) is performed twice, so exactly one output file exists
afterwards. -/
theorem process_file_single_output_path (zip_name file_path : String)
    (read_entry : Except String Bytes) (parse : Bytes → Except String Doc)
    (sampler : Nat → Nat → List Nat) (gs : Bytes → GsRun)
    (hcap : ∀ d : Doc, parse [] ≠ Except.ok d) :
    ∃ (b : Bucket) (data : Bytes),
      (process_file zip_name file_path read_entry parse sampler gs).2
          = [⟨b, zip_name, file_path, data⟩] ∨
      (b = Bucket.failure ∧
        (process_file zip_name file_path read_entry parse sampler gs).2
            = [⟨b, zip_name, file_path, data⟩, ⟨b, zip_name, file_path, data⟩] ∧
        ∃ e, compress_pdf_in_memory gs data = Except.error e) := by
  cases read_entry with
  | error e => exact ⟨Bucket.failure, [], Or.inl rfl⟩
  | ok file_data =>
      cases hp : parse file_data with
      | error e =>
          refine ⟨Bucket.failure, file_data, Or.inl ?_⟩
          simp [process_file, hp]
      | ok doc =>
          have hne : file_data ≠ [] := by
            intro h
            rw [h] at hp
            exact hcap doc hp
          have hlen : file_data.length ≠ 0 := fun h => hne (List.length_eq_zero.mp h)
          have h0 : ¬ ((file_data.length : ℚ) / 1024 = 0) :=
            ne_of_gt (size_kb_pos file_data.length hlen)
          cases hs : is_scanned_pdf parse sampler file_data 3 with
          | true =>
              refine ⟨Bucket.scanned, file_data, Or.inl ?_⟩
              simp [process_file, hp, hs]
          | false =>
              cases hc : compress_pdf_in_memory gs file_data with
              | error e =>
                  refine ⟨Bucket.failure, file_data, Or.inr ⟨rfl, ?_, e, hc⟩⟩
                  simp [process_file, hp, hs, hc]
              | ok compressed_data =>
                  by_cases hlt : ((compressed_data.length : ℚ) / 1024
                      < (file_data.length : ℚ) / 1024)
                  · refine ⟨Bucket.compressed, compressed_data, Or.inl ?_⟩
                    simp [process_file, hp, hs, hc, hlt, h0]
                  · refine ⟨Bucket.compressed, file_data, Or.inl ?_⟩
                    simp [process_file, hp, hs, hc, hlt, h0]

/-- C1 witness for the amended claim, at a concrete successful task. -/
theorem process_file_single_output_path_witness :
    (∀ d : Doc, parseText [] ≠ Except.ok d) ∧
    (∃ (b : Bucket) (data : Bytes),
      (process_file "a" "x.pdf" (Except.ok [1, 2, 3, 4]) parseText sampleFirst gsSmall).2
          = [⟨b, "a", "x.pdf", data⟩] ∨
      (b = Bucket.failure ∧
        (process_file "a" "x.pdf" (Except.ok [1, 2, 3, 4]) parseText sampleFirst gsSmall).2
            = [⟨b, "a", "x.pdf", data⟩, ⟨b, "a", "x.pdf", data⟩] ∧
        ∃ e, compress_pdf_in_memory gsSmall data = Except.error e)) :=
  ⟨fun d h => by simp [parseText] at h,
   process_file_single_output_path "a" "x.pdf" (Except.ok [1, 2, 3, 4])
     parseText sampleFirst gsSmall (fun d h => by simp [parseText] at h)⟩

end Process4
